import Mathlib

/-!
Shallow embedding of `src/context.ts` (class `TelegrafContext` of iomllc/telegraf).

The embedding follows the source file closely:
* `UpdateTypes`, `MessageSubTypes`, `MessageSubTypesMapping` are transcribed verbatim
  (lines 10-60 of the source).
* The constructor (lines 69-86) becomes `mkContext`; the TS expression
  `UpdateTypes.find((key) => key in this.update)` becomes `updateTypeOf`, where the JS
  `key in obj` presence test is `hasKey`.  Note that the source puts a non-null
  assertion (`!`) on the result of `find`: at runtime nothing is thrown when no key
  matches, the field simply holds `undefined`, which we model as `none`.
* The getters (lines 96-173) become the functions in namespace `Ctx`; optional-chaining
  `??` chains become `<|>` chains on `Option`.  A JS expression `(a ?? b ?? c)?.f`
  selects the first non-absent object and then projects `f`; for the `from` and
  `inline_message_id` chains (where `f` itself may be absent on the selected object)
  this is rendered by mapping each candidate to `some (candidate.f)` and flattening
  with `Option.join`, which picks the same candidate because `Option.map` preserves
  presence.
* Dispatch methods (lines 194-596) return `Except String ApiCall`: `Except.error msg`
  models the `Error` thrown by the private `assert` helper (its message string built
  exactly as on line 200), and `Except.ok` carries the method name and positional
  argument list of the single delegated call to the outbound `Telegram` invoker.
  Opaque payload arguments (extras, markup, media, coordinates) are modelled by the
  JS-value type `JsVal`.
-/

/-- A JS runtime value as it appears in an argument list forwarded to the outbound
invoker: `undef` is `undefined`, `num`/`str` are primitives, `obj` is an opaque
payload object (extra options, markup, media, ...) identified by a tag. -/
inductive JsVal where
  | undef : JsVal
  | num : Int → JsVal
  | str : String → JsVal
  | obj : String → JsVal
  deriving Repr, DecidableEq

/-- `tt.Chat`: only the numeric id is relevant to `context.ts`. -/
structure Chat where
  id : Int
  deriving Repr, DecidableEq

/-- `tt.User`: only the numeric id is relevant to `context.ts`. -/
structure User where
  id : Int
  deriving Repr, DecidableEq

/-- A message-like object (`message`, `edited_message`, `channel_post`,
`edited_channel_post`).  `message_id` and `chat` are required by the platform type;
`fromUser` models the optional `from` field (`from` is a Lean keyword); `keys` is the
set of content-field names present on the object (the JS `key in msg` test used by the
sub-kind scan); `passport_data` is the optional field read by the `passportData`
getter. -/
structure Message where
  message_id : Int
  chat : Chat
  fromUser : Option User := none
  keys : List String := []
  passport_data : Option JsVal := none
  deriving Repr, DecidableEq

/-- `tt.CallbackQuery`: id, optional `from`, optional embedded `message`, optional
`inline_message_id`. -/
structure CallbackQuery where
  id : String
  fromUser : Option User := none
  message : Option Message := none
  inline_message_id : Option String := none
  deriving Repr, DecidableEq

/-- `tt.InlineQuery`: id and optional `from`. -/
structure InlineQuery where
  id : String
  fromUser : Option User := none
  deriving Repr, DecidableEq

/-- `tt.ShippingQuery`: id and optional `from`. -/
structure ShippingQuery where
  id : String
  fromUser : Option User := none
  deriving Repr, DecidableEq

/-- `tt.PreCheckoutQuery`: id and optional `from`. -/
structure PreCheckoutQuery where
  id : String
  fromUser : Option User := none
  deriving Repr, DecidableEq

/-- `tt.ChosenInlineResult`: optional `from` and optional `inline_message_id`. -/
structure ChosenInlineResult where
  result_id : String
  fromUser : Option User := none
  inline_message_id : Option String := none
  deriving Repr, DecidableEq

/-- `tt.Poll`: only presence matters to `context.ts`. -/
structure Poll where
  id : String
  deriving Repr, DecidableEq

/-- `tt.PollAnswer`: only presence matters to `context.ts`. -/
structure PollAnswer where
  poll_id : String
  deriving Repr, DecidableEq

/-- `tt.Update`: the inbound event, a record of optional branches.  A field being
`none` models the key being absent from the JS object. -/
structure Update where
  message : Option Message := none
  edited_message : Option Message := none
  channel_post : Option Message := none
  edited_channel_post : Option Message := none
  inline_query : Option InlineQuery := none
  shipping_query : Option ShippingQuery := none
  pre_checkout_query : Option PreCheckoutQuery := none
  chosen_inline_result : Option ChosenInlineResult := none
  callback_query : Option CallbackQuery := none
  poll : Option Poll := none
  poll_answer : Option PollAnswer := none
  deriving Repr, DecidableEq

/-- Source lines 10-22: the ordered primary-kind enumeration. -/
def UpdateTypes : List String :=
  ["callback_query", "channel_post", "chosen_inline_result", "edited_channel_post",
   "edited_message", "inline_query", "shipping_query", "pre_checkout_query",
   "message", "poll", "poll_answer"]

/-- Source lines 24-56: the ordered secondary-kind enumeration. -/
def MessageSubTypes : List String :=
  ["voice", "video_note", "video", "animation", "venue", "text",
   "supergroup_chat_created", "successful_payment", "sticker", "pinned_message",
   "photo", "new_chat_title", "new_chat_photo", "new_chat_members",
   "migrate_to_chat_id", "migrate_from_chat_id", "location", "left_chat_member",
   "invoice", "group_chat_created", "game", "dice", "document",
   "delete_chat_photo", "contact", "channel_chat_created", "audio",
   "connected_website", "passport_data", "poll", "forward_date"]

/-- Source lines 58-60: the rename table `{ forward_date: "forward" }`, applied in the
constructor as `MessageSubTypesMapping[type] || type`. -/
def MessageSubTypesMapping (key : String) : String :=
  if key = "forward_date" then "forward" else key

/-- The JS test `key in this.update` for the primary-kind keys. -/
def hasKey (u : Update) (key : String) : Bool :=
  if key = "callback_query" then u.callback_query.isSome
  else if key = "channel_post" then u.channel_post.isSome
  else if key = "chosen_inline_result" then u.chosen_inline_result.isSome
  else if key = "edited_channel_post" then u.edited_channel_post.isSome
  else if key = "edited_message" then u.edited_message.isSome
  else if key = "inline_query" then u.inline_query.isSome
  else if key = "shipping_query" then u.shipping_query.isSome
  else if key = "pre_checkout_query" then u.pre_checkout_query.isSome
  else if key = "message" then u.message.isSome
  else if key = "poll" then u.poll.isSome
  else if key = "poll_answer" then u.poll_answer.isSome
  else false

/-- Source line 74: `UpdateTypes.find((key) => key in this.update)`.  The source
suffixes the expression with the TypeScript non-null assertion `!`, which has no
runtime effect: when no key matches, the stored value is `undefined` (`none`). -/
def updateTypeOf (u : Update) : Option String :=
  UpdateTypes.find? (fun key => hasKey u key)

/-- The sub-object access `this.update[this.updateType]` for the two kinds the
sub-kind scan is performed on (guarded by line 76 of the source). -/
def messageLikeOf (u : Update) (t : String) : Option Message :=
  if t = "message" then u.message
  else if t = "channel_post" then u.channel_post
  else none

/-- Source lines 77-79: `MessageSubTypes.filter((key) => key in sub).map(rename)`. -/
def subKindsOf (m : Message) : List String :=
  (MessageSubTypes.filter (fun key => m.keys.contains key)).map MessageSubTypesMapping

/-- Source lines 75-82: the secondary-kind computation of the constructor, including
the `updateType === "message" || (channelMode && updateType === "channel_post")`
guard. -/
def updateSubTypesOf (u : Update) (channelMode : Bool) : List String :=
  match updateTypeOf u with
  | some t =>
      if (t == "message") || (channelMode && (t == "channel_post")) then
        match messageLikeOf u t with
        | some m => subKindsOf m
        | none => []
      else []
  | none => []

/-- The `options` constructor argument (line 72): `channelMode` defaults to absent,
which behaves as `false`; `username` backs the `me` getter. -/
structure ContextOptions where
  channelMode : Bool := false
  username : Option String := none
  deriving Repr, DecidableEq

/-- The request-scoped facade: the raw update, the options, the two classification
fields computed eagerly by the constructor, and the lazily initialised private
`contextState` bag behind the `state` getter/setter. -/
structure TelegrafContext where
  update : Update
  options : ContextOptions
  updateType : Option String
  updateSubTypes : List String
  contextState : Option (List (String × JsVal)) := none
  deriving Repr, DecidableEq

/-- Source lines 69-86: the constructor.  It never throws: classification runs the
`find` of line 74 and the guarded sub-kind scan of lines 76-82, and the remaining
statements only re-bind prototype methods. -/
def mkContext (update : Update) (options : ContextOptions) : TelegrafContext :=
  { update := update
    options := options
    updateType := updateTypeOf update
    updateSubTypes := updateSubTypesOf update options.channelMode
    contextState := none }

/-- Source lines 142-150: the `chat` getter,
`(message ?? editedMessage ?? callbackQuery?.message ?? channelPost ?? editedChannelPost)?.chat`.
`Message.chat` is a required field, so the trailing `?.chat` is a plain `map`. -/
def chatOf (u : Update) : Option Chat :=
  (u.message <|> u.edited_message <|> u.callback_query.bind CallbackQuery.message <|>
    u.channel_post <|> u.edited_channel_post).map Message.chat

/-- Source lines 152-164: the `from` getter, a nine-way `??` chain followed by
`?.from`.  The chain selects the first present object; since `from` is itself
optional on that object, each candidate is mapped to `some (candidate.from)` and the
selected layer is flattened with `join`. -/
def fromOf (u : Update) : Option User :=
  (u.message.map Message.fromUser <|> u.edited_message.map Message.fromUser <|>
    u.callback_query.map CallbackQuery.fromUser <|>
    u.inline_query.map InlineQuery.fromUser <|>
    u.channel_post.map Message.fromUser <|> u.edited_channel_post.map Message.fromUser <|>
    u.shipping_query.map ShippingQuery.fromUser <|>
    u.pre_checkout_query.map PreCheckoutQuery.fromUser <|>
    u.chosen_inline_result.map ChosenInlineResult.fromUser).join

/-- Source lines 166-168: the `inlineMessageId` getter,
`(callbackQuery ?? chosenInlineResult)?.inline_message_id`. -/
def inlineMessageIdOf (u : Update) : Option String :=
  (u.callback_query.map CallbackQuery.inline_message_id <|>
    u.chosen_inline_result.map ChosenInlineResult.inline_message_id).join

/-- Source lines 170-173: the `passportData` getter, `message?.passport_data`. -/
def passportDataOf (u : Update) : Option JsVal :=
  u.message.bind Message.passport_data

namespace Ctx

/-- Getter `message` (source lines 96-98), as a read on the facade: the returned pair
is the value and the facade after the read (the getter performs no assignment). -/
def message (c : TelegrafContext) : Option Message × TelegrafContext :=
  (c.update.message, c)

/-- Getter `editedMessage` (lines 100-102). -/
def editedMessage (c : TelegrafContext) : Option Message × TelegrafContext :=
  (c.update.edited_message, c)

/-- Getter `inlineQuery` (lines 104-106). -/
def inlineQuery (c : TelegrafContext) : Option InlineQuery × TelegrafContext :=
  (c.update.inline_query, c)

/-- Getter `shippingQuery` (lines 108-110). -/
def shippingQuery (c : TelegrafContext) : Option ShippingQuery × TelegrafContext :=
  (c.update.shipping_query, c)

/-- Getter `preCheckoutQuery` (lines 112-114). -/
def preCheckoutQuery (c : TelegrafContext) : Option PreCheckoutQuery × TelegrafContext :=
  (c.update.pre_checkout_query, c)

/-- Getter `chosenInlineResult` (lines 116-118). -/
def chosenInlineResult (c : TelegrafContext) : Option ChosenInlineResult × TelegrafContext :=
  (c.update.chosen_inline_result, c)

/-- Getter `channelPost` (lines 120-122). -/
def channelPost (c : TelegrafContext) : Option Message × TelegrafContext :=
  (c.update.channel_post, c)

/-- Getter `editedChannelPost` (lines 124-126). -/
def editedChannelPost (c : TelegrafContext) : Option Message × TelegrafContext :=
  (c.update.edited_channel_post, c)

/-- Getter `callbackQuery` (lines 128-130). -/
def callbackQuery (c : TelegrafContext) : Option CallbackQuery × TelegrafContext :=
  (c.update.callback_query, c)

/-- Getter `poll` (lines 132-135). -/
def poll (c : TelegrafContext) : Option Poll × TelegrafContext :=
  (c.update.poll, c)

/-- Getter `pollAnswer` (lines 137-140). -/
def pollAnswer (c : TelegrafContext) : Option PollAnswer × TelegrafContext :=
  (c.update.poll_answer, c)

/-- Getter `chat` (lines 142-150). -/
def chat (c : TelegrafContext) : Option Chat × TelegrafContext :=
  (chatOf c.update, c)

/-- Getter `from` (lines 152-164). -/
def fromUser (c : TelegrafContext) : Option User × TelegrafContext :=
  (fromOf c.update, c)

/-- Getter `inlineMessageId` (lines 166-168). -/
def inlineMessageId (c : TelegrafContext) : Option String × TelegrafContext :=
  (inlineMessageIdOf c.update, c)

/-- Getter `passportData` (lines 170-173). -/
def passportData (c : TelegrafContext) : Option JsVal × TelegrafContext :=
  (passportDataOf c.update, c)

/-- The readonly field `updateType` as a read accessor. -/
def updateType (c : TelegrafContext) : Option String × TelegrafContext :=
  (c.updateType, c)

/-- The readonly field `updateSubTypes` as a read accessor. -/
def updateSubTypes (c : TelegrafContext) : List String × TelegrafContext :=
  (c.updateSubTypes, c)

/-- Getter `state` (lines 175-180): the only mutating read accessor — it lazily
initialises the private `contextState` bag to the empty object. -/
def state (c : TelegrafContext) : List (String × JsVal) × TelegrafContext :=
  match c.contextState with
  | some s => (s, c)
  | none => ([], { c with contextState := some [] })

end Ctx

/-- Source lines 194-202: the message of the `Error` thrown by the private `assert`
helper.  In the JS template literal, an undefined `updateType` prints as
"undefined" and the `updateSubTypes` array prints as its comma-joined elements. -/
def assertMsg (method : String) (c : TelegrafContext) : String :=
  "Telegraf: \"" ++ method ++ "\" isn\x27t available for \"" ++
    c.updateType.getD "undefined" ++ "::" ++
    String.intercalate "," c.updateSubTypes ++ "\""

/-- One delegated call to the outbound `Telegram` invoker: the invoker method name
and its positional arguments. -/
structure ApiCall where
  method : String
  args : List JsVal
  deriving Repr, DecidableEq

/-- `o?.id`-style coercion of an optional number into the forwarded argument. -/
def optNum (o : Option Int) : JsVal :=
  match o with
  | some i => JsVal.num i
  | none => JsVal.undef

/-- `o?.f`-style coercion of an optional string into the forwarded argument. -/
def optStr (o : Option String) : JsVal :=
  match o with
  | some s => JsVal.str s
  | none => JsVal.undef

/-- The common shape of every chat-scoped dispatch method of the source
(`reply`, `getChat`, `kickChatMember`, ..., lines 316-511 and 517-525):
`assert(this.chat, methodName); return this.telegram.apiMethod(this.chat.id, ...args)`. -/
def chatScoped (methodName apiMethod : String) (c : TelegrafContext) (args : List JsVal) :
    Except String ApiCall :=
  match chatOf c.update with
  | none => Except.error (assertMsg methodName c)
  | some chat => Except.ok ⟨apiMethod, JsVal.num chat.id :: args⟩

/-- Source lines 316-319. -/
def reply (c : TelegrafContext) (args : List JsVal) : Except String ApiCall :=
  chatScoped "reply" "sendMessage" c args

/-- Source lines 321-324. -/
def getChat (c : TelegrafContext) (args : List JsVal) : Except String ApiCall :=
  chatScoped "getChat" "getChat" c args

/-- Source lines 331-334. -/
def kickChatMember (c : TelegrafContext) (args : List JsVal) : Except String ApiCall :=
  chatScoped "kickChatMember" "kickChatMember" c args

/-- Source lines 368-371. -/
def setChatTitle (c : TelegrafContext) (args : List JsVal) : Except String ApiCall :=
  chatScoped "setChatTitle" "setChatTitle" c args

/-- Source lines 378-381. -/
def pinChatMessage (c : TelegrafContext) (args : List JsVal) : Except String ApiCall :=
  chatScoped "pinChatMessage" "pinChatMessage" c args

/-- Source lines 388-391. -/
def leaveChat (c : TelegrafContext) (args : List JsVal) : Except String ApiCall :=
  chatScoped "leaveChat" "leaveChat" c args

/-- Source lines 418-421. -/
def replyWithPhoto (c : TelegrafContext) (args : List JsVal) : Except String ApiCall :=
  chatScoped "replyWithPhoto" "sendPhoto" c args

/-- The guard value shared by the edit family (e.g. line 233):
`this.callbackQuery ?? this.inlineMessageId` is non-undefined exactly when the
callback query object is present or the resolved inline-message-id is present. -/
def editGuard (u : Update) : Bool :=
  u.callback_query.isSome || (inlineMessageIdOf u).isSome

/-- The three addressing arguments every edit-family method forwards (e.g. lines
235-237): `this.chat?.id`, `this.callbackQuery?.message?.message_id`,
`this.inlineMessageId`. -/
def editTarget (u : Update) : List JsVal :=
  [optNum ((chatOf u).map Chat.id),
   optNum ((u.callback_query.bind CallbackQuery.message).map Message.message_id),
   optStr (inlineMessageIdOf u)]

/-- Source lines 232-241. -/
def editMessageText (c : TelegrafContext) (text : String) (extra : JsVal) :
    Except String ApiCall :=
  if editGuard c.update then
    Except.ok ⟨"editMessageText", editTarget c.update ++ [JsVal.str text, extra]⟩
  else Except.error (assertMsg "editMessageText" c)

/-- Source lines 243-258 (`caption` is `string | undefined`, hence a `JsVal`). -/
def editMessageCaption (c : TelegrafContext) (caption extra : JsVal) :
    Except String ApiCall :=
  if editGuard c.update then
    Except.ok ⟨"editMessageCaption", editTarget c.update ++ [caption, extra]⟩
  else Except.error (assertMsg "editMessageCaption" c)

/-- Source lines 260-269. -/
def editMessageMedia (c : TelegrafContext) (media extra : JsVal) :
    Except String ApiCall :=
  if editGuard c.update then
    Except.ok ⟨"editMessageMedia", editTarget c.update ++ [media, extra]⟩
  else Except.error (assertMsg "editMessageMedia" c)

/-- Source lines 271-282. -/
def editMessageReplyMarkup (c : TelegrafContext) (markup : JsVal) :
    Except String ApiCall :=
  if editGuard c.update then
    Except.ok ⟨"editMessageReplyMarkup", editTarget c.update ++ [markup]⟩
  else Except.error (assertMsg "editMessageReplyMarkup" c)

/-- Source lines 284-301: note the delegate receives `latitude` and `longitude`
BEFORE the three addressing arguments. -/
def editMessageLiveLocation (c : TelegrafContext) (latitude longitude markup : JsVal) :
    Except String ApiCall :=
  if editGuard c.update then
    Except.ok ⟨"editMessageLiveLocation",
      [latitude, longitude] ++ editTarget c.update ++ [markup]⟩
  else Except.error (assertMsg "editMessageLiveLocation" c)

/-- Source lines 303-314. -/
def stopMessageLiveLocation (c : TelegrafContext) (markup : JsVal) :
    Except String ApiCall :=
  if editGuard c.update then
    Except.ok ⟨"stopMessageLiveLocation", editTarget c.update ++ [markup]⟩
  else Except.error (assertMsg "stopMessageLiveLocation" c)

/-- Source lines 574-581: the two-path `deleteMessage`. -/
def deleteMessage (c : TelegrafContext) (messageId : Option Int) :
    Except String ApiCall :=
  match chatOf c.update with
  | none => Except.error (assertMsg "deleteMessage" c)
  | some chat =>
      match messageId with
      | some mid => Except.ok ⟨"deleteMessage", [JsVal.num chat.id, JsVal.num mid]⟩
      | none =>
          match c.update.message with
          | none => Except.error (assertMsg "deleteMessage" c)
          | some m =>
              Except.ok ⟨"deleteMessage", [JsVal.num chat.id, JsVal.num m.message_id]⟩

/-- The claim-side reading of the chat chain: the candidate sub-objects in the
spec's probe order. -/
def chatCandidates (u : Update) : List (Option Message) :=
  [u.message, u.edited_message, u.callback_query.bind CallbackQuery.message,
   u.channel_post, u.edited_channel_post]

/-- The claim-side reading of the sender chain: each candidate, in the spec's probe
order, mapped (when present) to its `from` field. -/
def fromCandidates (u : Update) : List (Option (Option User)) :=
  [u.message.map Message.fromUser, u.edited_message.map Message.fromUser,
   u.callback_query.map CallbackQuery.fromUser,
   u.inline_query.map InlineQuery.fromUser,
   u.channel_post.map Message.fromUser, u.edited_channel_post.map Message.fromUser,
   u.shipping_query.map ShippingQuery.fromUser,
   u.pre_checkout_query.map PreCheckoutQuery.fromUser,
   u.chosen_inline_result.map ChosenInlineResult.fromUser]

/-- Substring containment, used to state what the guard error message carries. -/
def containsStr (s sub : String) : Prop :=
  ∃ l r, s = l ++ sub ++ r

/-- A text message with a forward marker, as in the spec's example. -/
def exForwardedTextMessage : Message :=
  { message_id := 10, chat := { id := 5 }, fromUser := some { id := 7 },
    keys := ["text", "forward_date"] }

/-- Concrete event: a plain message carrying `text` and `forward_date`. -/
def exMessageUpdate : Update :=
  { message := some exForwardedTextMessage }

/-- Concrete malformed event: both `callback_query` and `message` present. -/
def exDoubleUpdate : Update :=
  { message := some exForwardedTextMessage,
    callback_query := some { id := "cbq1", fromUser := some { id := 9 } } }

/-- Concrete event: a callback query with an embedded message. -/
def exCallbackUpdate : Update :=
  { callback_query := some
      { id := "cbq2", fromUser := some { id := 9 },
        message := some { message_id := 10, chat := { id := 5 } } } }

/-- Concrete event: a callback query with neither embedded message nor
inline-message-id. -/
def exBareCallbackUpdate : Update :=
  { callback_query := some { id := "cbq3", fromUser := some { id := 9 } } }

/-- Concrete event: an inline query (no resolvable chat). -/
def exInlineQueryUpdate : Update :=
  { inline_query := some { id := "iq1", fromUser := some { id := 7 } } }

/-- Concrete event with no recognised primary-kind field at all. -/
def exEmptyUpdate : Update := {}

/-- `List.find?` returns the head of the suffix when everything before it fails the
predicate and the head satisfies it. -/
theorem find?_append_cons {α : Type} (p : α → Bool) (l₁ l₂ : List α) (k : α)
    (h₁ : ∀ x ∈ l₁, p x = false) (hk : p k = true) :
    (l₁ ++ k :: l₂).find? p = some k := by
  induction l₁ with
  | nil => simpa using List.find?_cons_of_pos l₂ hk
  | cons a as ih =>
      have ha : p a = false := h₁ a (List.mem_cons_self a as)
      rw [List.cons_append, List.find?_cons_of_neg]
      · exact ih (fun x hx => h₁ x (List.mem_cons_of_mem a hx))
      · simp [ha]

/-- The primary-kind enumeration has no duplicate entries. -/
theorem updateTypes_nodup : UpdateTypes.Nodup := by decide

/-- In a duplicate-free list split as `l₁ ++ k :: l₂`, no element of the prefix
equals `k`. -/
theorem mem_prefix_ne {l₁ l₂ : List String} {k x : String}
    (hnd : (l₁ ++ k :: l₂).Nodup) (hx : x ∈ l₁) : x ≠ k := by
  rcases List.nodup_append.mp hnd with ⟨-, -, hdisj⟩
  intro h
  subst h
  exact hdisj hx (List.mem_cons_self x l₂)

/-- C5: for an inbound event exhibiting exactly one primary-kind field,
classification stores that kind as the facade's `updateType`; for a malformed event
whose fields cover exactly two primary kinds, the kind declared earlier in
`UpdateTypes` wins. -/
theorem classify_first_declared_wins (u : Update) (opts : ContextOptions) (k : String)
    (hk : k ∈ UpdateTypes) :
    ((hasKey u k = true ∧ ∀ k2 ∈ UpdateTypes, k2 ≠ k → hasKey u k2 = false) →
      (mkContext u opts).updateType = some k)
    ∧ (∀ k2, (∃ l₁ l₂ l₃, UpdateTypes = l₁ ++ k :: (l₂ ++ k2 :: l₃)) →
        hasKey u k = true → hasKey u k2 = true →
        (∀ k3 ∈ UpdateTypes, k3 ≠ k → k3 ≠ k2 → hasKey u k3 = false) →
        (mkContext u opts).updateType = some k) := by
  constructor
  · rintro ⟨hkk, hothers⟩
    obtain ⟨s, t, hst⟩ := List.append_of_mem hk
    show updateTypeOf u = some k
    unfold updateTypeOf
    rw [hst]
    refine find?_append_cons _ s t k (fun x hx => ?_) hkk
    have hxk : x ≠ k := mem_prefix_ne (hst ▸ updateTypes_nodup) hx
    refine hothers x ?_ hxk
    rw [hst]
    exact List.mem_append_left _ hx
  · rintro k2 ⟨l₁, l₂, l₃, hdec⟩ hk1 hk2 hothers
    show updateTypeOf u = some k
    unfold updateTypeOf
    rw [hdec]
    have hnd : (l₁ ++ k :: (l₂ ++ k2 :: l₃)).Nodup := hdec ▸ updateTypes_nodup
    refine find?_append_cons _ l₁ (l₂ ++ k2 :: l₃) k (fun x hx => ?_) hk1
    have hxk : x ≠ k := mem_prefix_ne hnd hx
    have hxk2 : x ≠ k2 := by
      rcases List.nodup_append.mp hnd with ⟨-, -, hdisj⟩
      intro h
      subst h
      exact hdisj hx (by simp)
    refine hothers x ?_ hxk hxk2
    rw [hdec]
    exact List.mem_append_left _ hx

/-- Witness for C5: the plain message event classifies as `message`; the malformed
event carrying both `callback_query` and `message` classifies as `callback_query`,
the kind declared earlier. -/
theorem classify_first_declared_wins_witness :
    (mkContext exMessageUpdate {}).updateType = some "message" ∧
    (mkContext exDoubleUpdate {}).updateType = some "callback_query" := by
  constructor
  · exact (classify_first_declared_wins exMessageUpdate {} "message" (by decide)).1
      ⟨by decide, by decide⟩
  · exact (classify_first_declared_wins exDoubleUpdate {} "callback_query"
      (by decide)).2 "message"
      ⟨[], ["channel_post", "chosen_inline_result", "edited_channel_post",
            "edited_message", "inline_query", "shipping_query", "pre_checkout_query"],
        ["poll", "poll_answer"], by decide⟩
      (by decide) (by decide) (by decide)

/-- C1 counterexample: on the event with no primary-kind field, construction does
not abort with a hard error — it returns a (partially-classified) facade whose
`updateType` holds no kind and whose sub-kind list is empty.  The non-null assertion
on source line 74 is erased at runtime, and no other constructor statement throws. -/
theorem construction_no_primary_counterexample :
    (mkContext exEmptyUpdate {}).updateType = none ∧
    (mkContext exEmptyUpdate {}).updateSubTypes = [] := by
  exact ⟨by decide, by decide⟩

/-- C1 amended: for every inbound event in which none of the primary-kind fields is
present, facade construction succeeds anyway (it is total): the resulting facade has
an absent `updateType` and an empty `updateSubTypes`. -/
theorem construction_no_primary_total (u : Update) (opts : ContextOptions)
    (h : ∀ k ∈ UpdateTypes, hasKey u k = false) :
    (mkContext u opts).updateType = none ∧ (mkContext u opts).updateSubTypes = [] := by
  have ht : updateTypeOf u = none := by
    unfold updateTypeOf
    rw [List.find?_eq_none]
    intro x hx
    simp [h x hx]
  refine ⟨ht, ?_⟩
  show updateSubTypesOf u opts.channelMode = []
  unfold updateSubTypesOf
  rw [ht]

/-- Witness for the amended C1, at the concrete empty event. -/
theorem construction_no_primary_total_witness :
    (mkContext exEmptyUpdate {}).updateType = none ∧
    (mkContext exEmptyUpdate {}).updateSubTypes = [] :=
  construction_no_primary_total exEmptyUpdate {} (by decide)

/-- C6: when the primary kind is `message` — likewise `channel_post` with channel
mode enabled — the facade's secondary-kind list is exactly the sub-kinds whose
fields are present on the message-like sub-object, in declaration order of
`MessageSubTypes`, with the rename table applied; for `channel_post` without
channel mode and for every other primary kind the list is empty. -/
theorem sub_kind_scan (u : Update) (opts : ContextOptions) :
    (∀ m, u.message = some m → (mkContext u opts).updateType = some "message" →
      (mkContext u opts).updateSubTypes =
        (MessageSubTypes.filter (fun key => m.keys.contains key)).map
          MessageSubTypesMapping)
    ∧ (∀ m, opts.channelMode = true → u.channel_post = some m →
        (mkContext u opts).updateType = some "channel_post" →
        (mkContext u opts).updateSubTypes =
          (MessageSubTypes.filter (fun key => m.keys.contains key)).map
            MessageSubTypesMapping)
    ∧ (opts.channelMode = false →
        (mkContext u opts).updateType = some "channel_post" →
        (mkContext u opts).updateSubTypes = [])
    ∧ (∀ t, (mkContext u opts).updateType = some t → t ≠ "message" →
        t ≠ "channel_post" → (mkContext u opts).updateSubTypes = []) := by
  refine ⟨?_, ?_, ?_, ?_⟩
  · intro m hm ht
    have ht2 : updateTypeOf u = some "message" := ht
    show updateSubTypesOf u opts.channelMode =
      (MessageSubTypes.filter (fun key => m.keys.contains key)).map
        MessageSubTypesMapping
    simp [updateSubTypesOf, ht2, messageLikeOf, hm, subKindsOf]
  · intro m hcm hcp ht
    have ht2 : updateTypeOf u = some "channel_post" := ht
    show updateSubTypesOf u opts.channelMode =
      (MessageSubTypes.filter (fun key => m.keys.contains key)).map
        MessageSubTypesMapping
    simp [updateSubTypesOf, ht2, messageLikeOf, hcp, hcm, subKindsOf]
  · intro hcm ht
    have ht2 : updateTypeOf u = some "channel_post" := ht
    show updateSubTypesOf u opts.channelMode = []
    simp [updateSubTypesOf, ht2, hcm]
  · intro t ht hne1 hne2
    have ht2 : updateTypeOf u = some t := ht
    show updateSubTypesOf u opts.channelMode = []
    have hguard : ((t == "message") || (opts.channelMode && (t == "channel_post")))
        = false := by
      simp [hne1, hne2]
    simp [updateSubTypesOf, ht2, hguard]

/-- Witness for C6: the spec's example — a message with `text` and `forward_date`
present yields the sub-kinds `["text", "forward"]`, in declaration order with the
rename applied. -/
theorem sub_kind_scan_witness :
    (mkContext exMessageUpdate {}).updateSubTypes = ["text", "forward"] := by
  rw [(sub_kind_scan exMessageUpdate {}).1 exForwardedTextMessage (by decide)
    (by decide)]
  decide

/-- `findSome? id` on a cons behaves like the JS `??` of the head with the rest. -/
theorem findSome?_id_cons {α : Type} (x : Option α) (xs : List (Option α)) :
    (x :: xs).findSome? id = (x <|> xs.findSome? id) := by
  cases x <;> simp [List.findSome?]

/-- `none` is a right identity for the JS `??` on options. -/
theorem orElse_none {α : Type} (x : Option α) : (x <|> none) = x := by
  cases x <;> rfl

/-- C7: the resolved chat is the `chat` field of the first present candidate in the
fixed probe order (message, edited message, callback query's embedded message,
channel post, edited channel post), absent when no candidate is present; in
particular, a callback-query event with an embedded message carrying a chat
resolves to that embedded message's chat. -/
theorem chat_resolution (u : Update) :
    chatOf u = ((chatCandidates u).findSome? id).map Message.chat
    ∧ (∀ cb m, u.message = none → u.edited_message = none →
        u.callback_query = some cb → cb.message = some m →
        chatOf u = some m.chat) := by
  constructor
  · simp [chatOf, chatCandidates, findSome?_id_cons, orElse_none]
  · intro cb m h1 h2 h3 h4
    simp [chatOf, h1, h2, h3, h4]

/-- Witness for C7: the concrete callback-query event with an embedded message in
chat 5 resolves to chat 5. -/
theorem chat_resolution_witness : chatOf exCallbackUpdate = some { id := 5 } := by
  exact (chat_resolution exCallbackUpdate).2
    { id := "cbq2", fromUser := some { id := 9 },
      message := some { message_id := 10, chat := { id := 5 } } }
    { message_id := 10, chat := { id := 5 } } rfl rfl rfl rfl

/-- C8: the resolved sender is the `from` field of the first present candidate in
the fixed probe order (message, edited message, callback query, inline query,
channel post, edited channel post, shipping query, pre-checkout query, chosen
inline result), absent when no candidate is present; in particular, with both
`message` and `callback_query` present the sender is `message.from`. -/
theorem from_resolution (u : Update) :
    fromOf u = ((fromCandidates u).findSome? id).join
    ∧ (∀ m cb, u.message = some m → u.callback_query = some cb →
        fromOf u = m.fromUser) := by
  constructor
  · simp [fromOf, fromCandidates, findSome?_id_cons, orElse_none]
  · intro m cb h1 h2
    simp [fromOf, h1]

/-- Witness for C8: on the malformed event with both `message` (from user 7) and
`callback_query` (from user 9), the resolved sender is user 7. -/
theorem from_resolution_witness : fromOf exDoubleUpdate = some { id := 7 } := by
  exact (from_resolution exDoubleUpdate).2 exForwardedTextMessage
    { id := "cbq1", fromUser := some { id := 9 } } rfl rfl

/-- C10: every read accessor is deterministic and idempotent — invoking it a second
time, on the facade returned by the first invocation, yields the identical value
and leaves the facade identical. -/
theorem read_accessors_idempotent (c : TelegrafContext) :
    Ctx.chat (Ctx.chat c).2 = Ctx.chat c
    ∧ Ctx.fromUser (Ctx.fromUser c).2 = Ctx.fromUser c
    ∧ Ctx.inlineMessageId (Ctx.inlineMessageId c).2 = Ctx.inlineMessageId c
    ∧ Ctx.passportData (Ctx.passportData c).2 = Ctx.passportData c
    ∧ Ctx.message (Ctx.message c).2 = Ctx.message c
    ∧ Ctx.editedMessage (Ctx.editedMessage c).2 = Ctx.editedMessage c
    ∧ Ctx.channelPost (Ctx.channelPost c).2 = Ctx.channelPost c
    ∧ Ctx.editedChannelPost (Ctx.editedChannelPost c).2 = Ctx.editedChannelPost c
    ∧ Ctx.callbackQuery (Ctx.callbackQuery c).2 = Ctx.callbackQuery c
    ∧ Ctx.inlineQuery (Ctx.inlineQuery c).2 = Ctx.inlineQuery c
    ∧ Ctx.chosenInlineResult (Ctx.chosenInlineResult c).2 = Ctx.chosenInlineResult c
    ∧ Ctx.shippingQuery (Ctx.shippingQuery c).2 = Ctx.shippingQuery c
    ∧ Ctx.preCheckoutQuery (Ctx.preCheckoutQuery c).2 = Ctx.preCheckoutQuery c
    ∧ Ctx.poll (Ctx.poll c).2 = Ctx.poll c
    ∧ Ctx.pollAnswer (Ctx.pollAnswer c).2 = Ctx.pollAnswer c
    ∧ Ctx.updateType (Ctx.updateType c).2 = Ctx.updateType c
    ∧ Ctx.updateSubTypes (Ctx.updateSubTypes c).2 = Ctx.updateSubTypes c :=
  ⟨rfl, rfl, rfl, rfl, rfl, rfl, rfl, rfl, rfl, rfl, rfl, rfl, rfl, rfl, rfl, rfl,
    rfl⟩

/-- C2 counterexample: at a concrete callback-query event,
`editMessageLiveLocation(1, 2, undefined)` delegates with `latitude` and
`longitude` BEFORE the addressing triple (chat id 5, message id 10, absent
inline-message-id), so the delegated argument list is not the addressing triple
followed by the caller's own arguments. -/
theorem edit_family_arg_order_counterexample :
    editMessageLiveLocation (mkContext exCallbackUpdate {}) (JsVal.num 1)
      (JsVal.num 2) JsVal.undef =
      Except.ok ⟨"editMessageLiveLocation",
        [JsVal.num 1, JsVal.num 2, JsVal.num 5, JsVal.num 10, JsVal.undef,
         JsVal.undef]⟩
    ∧ [JsVal.num 1, JsVal.num 2, JsVal.num 5, JsVal.num 10, JsVal.undef,
        JsVal.undef]
      ≠ [JsVal.num 5, JsVal.num 10, JsVal.undef] ++
          [JsVal.num 1, JsVal.num 2, JsVal.undef] :=
  ⟨rfl, by decide⟩

/-- C2 amended: each edit-family method throws the precondition failure when both
the callback query and the resolved inline-message-id are absent, and otherwise
delegates one call carrying the resolved chat id, the callback query's embedded
message id, and the inline-message-id together with the caller's own arguments
unchanged — the caller's arguments follow the addressing triple in five of the six
methods, while `editMessageLiveLocation` passes its `latitude` and `longitude`
before the addressing triple and its `markup` after it. -/
theorem edit_family_contract (u : Update) (opts : ContextOptions) (text : String)
    (caption media markup extra latitude longitude : JsVal) :
    (u.callback_query = none → inlineMessageIdOf u = none →
      (editMessageText (mkContext u opts) text extra =
          Except.error (assertMsg "editMessageText" (mkContext u opts))
        ∧ editMessageCaption (mkContext u opts) caption extra =
            Except.error (assertMsg "editMessageCaption" (mkContext u opts))
        ∧ editMessageMedia (mkContext u opts) media extra =
            Except.error (assertMsg "editMessageMedia" (mkContext u opts))
        ∧ editMessageReplyMarkup (mkContext u opts) markup =
            Except.error (assertMsg "editMessageReplyMarkup" (mkContext u opts))
        ∧ editMessageLiveLocation (mkContext u opts) latitude longitude markup =
            Except.error (assertMsg "editMessageLiveLocation" (mkContext u opts))
        ∧ stopMessageLiveLocation (mkContext u opts) markup =
            Except.error (assertMsg "stopMessageLiveLocation" (mkContext u opts))))
    ∧ ((u.callback_query.isSome = true ∨ (inlineMessageIdOf u).isSome = true) →
      (editMessageText (mkContext u opts) text extra =
          Except.ok ⟨"editMessageText",
            [optNum ((chatOf u).map Chat.id),
             optNum ((u.callback_query.bind CallbackQuery.message).map
               Message.message_id),
             optStr (inlineMessageIdOf u), JsVal.str text, extra]⟩
        ∧ editMessageCaption (mkContext u opts) caption extra =
            Except.ok ⟨"editMessageCaption",
              [optNum ((chatOf u).map Chat.id),
               optNum ((u.callback_query.bind CallbackQuery.message).map
                 Message.message_id),
               optStr (inlineMessageIdOf u), caption, extra]⟩
        ∧ editMessageMedia (mkContext u opts) media extra =
            Except.ok ⟨"editMessageMedia",
              [optNum ((chatOf u).map Chat.id),
               optNum ((u.callback_query.bind CallbackQuery.message).map
                 Message.message_id),
               optStr (inlineMessageIdOf u), media, extra]⟩
        ∧ editMessageReplyMarkup (mkContext u opts) markup =
            Except.ok ⟨"editMessageReplyMarkup",
              [optNum ((chatOf u).map Chat.id),
               optNum ((u.callback_query.bind CallbackQuery.message).map
                 Message.message_id),
               optStr (inlineMessageIdOf u), markup]⟩
        ∧ editMessageLiveLocation (mkContext u opts) latitude longitude markup =
            Except.ok ⟨"editMessageLiveLocation",
              [latitude, longitude, optNum ((chatOf u).map Chat.id),
               optNum ((u.callback_query.bind CallbackQuery.message).map
                 Message.message_id),
               optStr (inlineMessageIdOf u), markup]⟩
        ∧ stopMessageLiveLocation (mkContext u opts) markup =
            Except.ok ⟨"stopMessageLiveLocation",
              [optNum ((chatOf u).map Chat.id),
               optNum ((u.callback_query.bind CallbackQuery.message).map
                 Message.message_id),
               optStr (inlineMessageIdOf u), markup]⟩)) := by
  constructor
  · intro h1 h2
    have hguard : editGuard u = false := by simp [editGuard, h1, h2]
    refine ⟨?_, ?_, ?_, ?_, ?_, ?_⟩ <;>
      simp [editMessageText, editMessageCaption, editMessageMedia,
        editMessageReplyMarkup, editMessageLiveLocation, stopMessageLiveLocation,
        mkContext, hguard]
  · intro h
    have hguard : editGuard u = true := by
      rcases h with h | h <;> simp [editGuard, h]
    refine ⟨?_, ?_, ?_, ?_, ?_, ?_⟩ <;>
      simp [editMessageText, editMessageCaption, editMessageMedia,
        editMessageReplyMarkup, editMessageLiveLocation, stopMessageLiveLocation,
        mkContext, hguard, editTarget]

/-- Witness for the amended C2: at the concrete callback-query event,
`editMessageText` delegates chat id 5, message id 10, absent inline-message-id,
then the caller's text and extra. -/
theorem edit_family_contract_witness :
    editMessageText (mkContext exCallbackUpdate {}) "hi" JsVal.undef =
      Except.ok ⟨"editMessageText",
        [JsVal.num 5, JsVal.num 10, JsVal.undef, JsVal.str "hi", JsVal.undef]⟩ :=
  ((edit_family_contract exCallbackUpdate {} "hi" JsVal.undef JsVal.undef
    JsVal.undef JsVal.undef JsVal.undef JsVal.undef).2 (Or.inl (by decide))).1

/-- C3: for an event whose `callback_query` is present but carries neither an
embedded message nor an `inline_message_id` (and, per the one-branch-populated
event invariant, no message-like branch either), the edit-family guard passes and
the invoker receives chat id, message id, and inline-message-id all absent. -/
theorem edit_family_bare_callback (u : Update) (opts : ContextOptions)
    (cb : CallbackQuery) (text : String) (caption media markup extra lat lng : JsVal)
    (hcb : u.callback_query = some cb) (hm : cb.message = none)
    (hi : cb.inline_message_id = none) (h1 : u.message = none)
    (h2 : u.edited_message = none) (h3 : u.channel_post = none)
    (h4 : u.edited_channel_post = none) :
    editMessageText (mkContext u opts) text extra =
      Except.ok ⟨"editMessageText",
        [JsVal.undef, JsVal.undef, JsVal.undef, JsVal.str text, extra]⟩
    ∧ editMessageCaption (mkContext u opts) caption extra =
      Except.ok ⟨"editMessageCaption",
        [JsVal.undef, JsVal.undef, JsVal.undef, caption, extra]⟩
    ∧ editMessageMedia (mkContext u opts) media extra =
      Except.ok ⟨"editMessageMedia",
        [JsVal.undef, JsVal.undef, JsVal.undef, media, extra]⟩
    ∧ editMessageReplyMarkup (mkContext u opts) markup =
      Except.ok ⟨"editMessageReplyMarkup",
        [JsVal.undef, JsVal.undef, JsVal.undef, markup]⟩
    ∧ editMessageLiveLocation (mkContext u opts) lat lng markup =
      Except.ok ⟨"editMessageLiveLocation",
        [lat, lng, JsVal.undef, JsVal.undef, JsVal.undef, markup]⟩
    ∧ stopMessageLiveLocation (mkContext u opts) markup =
      Except.ok ⟨"stopMessageLiveLocation",
        [JsVal.undef, JsVal.undef, JsVal.undef, markup]⟩ := by
  have hchat : chatOf u = none := by simp [chatOf, h1, h2, hcb, hm, h3, h4]
  have himi : inlineMessageIdOf u = none := by simp [inlineMessageIdOf, hcb, hi]
  have hguard : editGuard u = true := by simp [editGuard, hcb]
  have htriple : editTarget u = [JsVal.undef, JsVal.undef, JsVal.undef] := by
    simp [editTarget, hchat, himi, hcb, hm, optNum, optStr]
  refine ⟨?_, ?_, ?_, ?_, ?_, ?_⟩ <;>
    simp [editMessageText, editMessageCaption, editMessageMedia,
      editMessageReplyMarkup, editMessageLiveLocation, stopMessageLiveLocation,
      mkContext, hguard, htriple]

/-- Witness for C3, at the concrete bare callback-query event. -/
theorem edit_family_bare_callback_witness :
    editMessageText (mkContext exBareCallbackUpdate {}) "hi" JsVal.undef =
      Except.ok ⟨"editMessageText",
        [JsVal.undef, JsVal.undef, JsVal.undef, JsVal.str "hi", JsVal.undef]⟩ :=
  (edit_family_bare_callback exBareCallbackUpdate {}
    { id := "cbq3", fromUser := some { id := 9 } } "hi" JsVal.undef JsVal.undef
    JsVal.undef JsVal.undef JsVal.undef JsVal.undef rfl rfl rfl rfl rfl rfl rfl).1

/-- C4: on an event with no resolvable chat, every chat-scoped dispatch method
fails synchronously with the precondition error — no call is ever produced for the
outbound invoker — and the error message contains the operation name, the primary
kind, and the comma-joined secondary-kind list. -/
theorem chat_scoped_guard (u : Update) (opts : ContextOptions)
    (methodName apiMethod : String) (args : List JsVal) (h : chatOf u = none) :
    chatScoped methodName apiMethod (mkContext u opts) args =
      Except.error (assertMsg methodName (mkContext u opts))
    ∧ (∀ call : ApiCall,
        chatScoped methodName apiMethod (mkContext u opts) args ≠ Except.ok call)
    ∧ containsStr (assertMsg methodName (mkContext u opts)) methodName
    ∧ containsStr (assertMsg methodName (mkContext u opts))
        ((mkContext u opts).updateType.getD "undefined")
    ∧ containsStr (assertMsg methodName (mkContext u opts))
        (String.intercalate "," (mkContext u opts).updateSubTypes) := by
  refine ⟨?_, ?_, ?_, ?_, ?_⟩
  · simp [chatScoped, mkContext, h]
  · intro call
    simp [chatScoped, mkContext, h]
  · exact ⟨"Telegraf: \"",
      "\" isn\x27t available for \"" ++
        (mkContext u opts).updateType.getD "undefined" ++ "::" ++
        String.intercalate "," (mkContext u opts).updateSubTypes ++ "\"",
      by simp [assertMsg, String.append_assoc]⟩
  · exact ⟨"Telegraf: \"" ++ methodName ++ "\" isn\x27t available for \"",
      "::" ++ String.intercalate "," (mkContext u opts).updateSubTypes ++ "\"",
      by simp [assertMsg, String.append_assoc]⟩
  · exact ⟨"Telegraf: \"" ++ methodName ++ "\" isn\x27t available for \"" ++
      (mkContext u opts).updateType.getD "undefined" ++ "::", "\"",
      by simp [assertMsg, String.append_assoc]⟩

/-- Witness for C4: `reply` on the concrete inline-query event fails with the
self-diagnosing message naming the method and the kind `inline_query`. -/
theorem chat_scoped_guard_witness :
    reply (mkContext exInlineQueryUpdate {}) [JsVal.str "hi"] =
      Except.error "Telegraf: \"reply\" isn\x27t available for \"inline_query::\""
    ∧ containsStr (assertMsg "reply" (mkContext exInlineQueryUpdate {}))
        "inline_query" := by
  constructor
  · exact (chat_scoped_guard exInlineQueryUpdate {} "reply" "sendMessage"
      [JsVal.str "hi"] rfl).1
  · exact (chat_scoped_guard exInlineQueryUpdate {} "reply" "sendMessage"
      [JsVal.str "hi"] rfl).2.2.2.1

/-- C9: on an event with a resolvable chat, `deleteMessage` with an explicit id
deletes that id in the resolved chat without requiring the event's own message;
with no argument it deletes the own message's id, failing with the precondition
error when the own message is absent. -/
theorem deleteMessage_two_path (u : Update) (opts : ContextOptions) (ch : Chat)
    (h : chatOf u = some ch) :
    (∀ mid : Int, deleteMessage (mkContext u opts) (some mid) =
      Except.ok ⟨"deleteMessage", [JsVal.num ch.id, JsVal.num mid]⟩)
    ∧ (∀ m, u.message = some m → deleteMessage (mkContext u opts) none =
        Except.ok ⟨"deleteMessage", [JsVal.num ch.id, JsVal.num m.message_id]⟩)
    ∧ (u.message = none → deleteMessage (mkContext u opts) none =
        Except.error (assertMsg "deleteMessage" (mkContext u opts))) := by
  refine ⟨?_, ?_, ?_⟩
  · intro mid
    simp [deleteMessage, mkContext, h]
  · intro m hm
    simp [deleteMessage, mkContext, h, hm]
  · intro hm
    simp [deleteMessage, mkContext, h, hm]

/-- Witness for C9: on the concrete message event (chat 5, own message id 10),
an explicit id 99 is deleted directly, and the no-argument call deletes id 10. -/
theorem deleteMessage_two_path_witness :
    deleteMessage (mkContext exMessageUpdate {}) (some 99) =
      Except.ok ⟨"deleteMessage", [JsVal.num 5, JsVal.num 99]⟩
    ∧ deleteMessage (mkContext exMessageUpdate {}) none =
      Except.ok ⟨"deleteMessage", [JsVal.num 5, JsVal.num 10]⟩ := by
  constructor
  · exact (deleteMessage_two_path exMessageUpdate {} { id := 5 } rfl).1 99
  · exact (deleteMessage_two_path exMessageUpdate {} { id := 5 } rfl).2.1
      exForwardedTextMessage rfl
